import Mathlib

/-!
Shallow embedding of the data-processing logic of the repository
`phaa/ibm-fine-tuning-llms`, which consists of two Jupyter notebooks:

* the instruction-tuning (SFT/QLoRA) notebook (`src/unnamed/part_000`), and
* the DPO notebook (`src/2-fine-tuning-PPO-DPO/3-Fine-Tuning-DPO.ipynb`).

The notebooks' own logic is a handful of dictionary-valued functions
(`format_prompt` in each notebook, the DPO filter lambda), plus a linear
sequence of library calls.  We embed:

* dataset records as association lists from column names to values, with
  Python-style lookup (KeyError on a missing key, TypeError on an
  ill-typed operand);
* the two `format_prompt` functions and the DPO filter lambda, translated
  statement by statement from the notebook cells;
* Hugging Face `Dataset.filter` / `Dataset.map(…, remove_columns=all)`
  as error-propagating list transformations;
* the configuration objects (`BitsAndBytesConfig`, the model-loading
  keyword arguments, the `DPOTrainer` keyword arguments) as transcribed
  structure values; and
* each notebook's top-level sequence of library calls as a concrete list
  of statements, for the ordering properties.
-/

/-- A chat message, as in the `messages` column of the ultrachat dataset:
a dictionary with a `role` and a `content` string. -/
structure ChatMessage where
  role : String
  content : String
deriving DecidableEq, Repr

/-- A Python value occurring in the dataset records the notebooks touch:
a string, a number (the dataset's `chosen_score` is a float; we embed
numbers as rationals), a boolean, or a list of chat messages. -/
inductive Value where
  | str : String → Value
  | num : ℚ → Value
  | bool : Bool → Value
  | msgs : List ChatMessage → Value
deriving DecidableEq, Repr

/-- A dataset record (a Python dict): an association list from column
names to values.  Real dicts have unique keys; lookup takes the first
binding. -/
def Record := List (String × Value)

instance : DecidableEq Record := by
  unfold Record
  infer_instance

instance : Membership (String × Value) Record := by
  unfold Record
  infer_instance

/-- Dictionary lookup, `r[k]` without the exception: `none` when the key
is absent. -/
def recGet (r : Record) (k : String) : Option Value :=
  match r with
  | [] => none
  | (k2, v) :: rest => if k2 = k then some v else recGet rest k

/-- The column names of a record, in order. -/
def recKeys (r : Record) : List String :=
  match r with
  | [] => []
  | (k, _) :: rest => k :: recKeys rest

/-- The Python exceptions the embedded notebook code can raise:
`KeyError` from a dictionary lookup on a missing key, `TypeError` from an
operation on an operand of the wrong type. -/
inductive PyError where
  | keyError : String → PyError
  | typeError : PyError
deriving DecidableEq, Repr

/-- `r[k]` with Python semantics: `KeyError` when the key is absent. -/
def pyGet (r : Record) (k : String) : Except PyError Value :=
  match recGet r k with
  | none => .error (.keyError k)
  | some v => .ok v

/-- `r[k]` where the surrounding code concatenates the result into a
string: `KeyError` when absent, `TypeError` when the value is not a
string (Python's `str + x` raises `TypeError` for non-`str` `x`). -/
def pyGetStr (r : Record) (k : String) : Except PyError String :=
  match recGet r k with
  | none => .error (.keyError k)
  | some (.str s) => .ok s
  | some _ => .error .typeError

/-- `r[k]` where the surrounding code treats the result as a chat-message
list (the argument of `apply_chat_template`). -/
def pyGetMsgs (r : Record) (k : String) : Except PyError (List ChatMessage) :=
  match recGet r k with
  | none => .error (.keyError k)
  | some (.msgs ms) => .ok ms
  | some _ => .error .typeError

/-- Python `v != s` for a string literal `s`: string inequality when `v`
is a string, `True` when `v` has another type (Python `!=` across types
is `True`, never an error). -/
def pyNeStr (v : Value) (s : String) : Bool :=
  match v with
  | .str t => decide (t ≠ s)
  | _ => true

/-- Python `v >= q` for a numeric literal `q`: numeric comparison for
numbers, with `bool` counting as `0`/`1` (Python bools are ints);
`TypeError` otherwise. -/
def pyGeNum (v : Value) (q : ℚ) : Except PyError Bool :=
  match v with
  | .num m => .ok (decide (q ≤ m))
  | .bool b => .ok (decide (q ≤ (if b then (1 : ℚ) else 0)))
  | _ => .error .typeError

/-- Python truthiness, as used by `not r[k]`. -/
def pyTruthy (v : Value) : Bool :=
  match v with
  | .bool b => b
  | .str s => decide (s ≠ "")
  | .num q => decide (q ≠ 0)
  | .msgs ms => !ms.isEmpty

/-! ## The DPO notebook's `format_prompt`

```python
def format_prompt(example):
    # Format answers
    system = "<|system|>\n" + example["system"] + "</s>\n"
    prompt = "<|user|>\n" + example["input"] + " </s>\n<|assistant|>\n"
    chosen = example["chosen"] + "</s>\n"
    rejected = example["rejected"] + "</s>\n"
    return {
        "prompt": system + prompt,
        "chosen": chosen,
        "rejected": rejected,
    }
```
-/

/-- The DPO notebook's `format_prompt`, translated line by line; the four
lookups happen in the source's order. -/
def format_prompt (ex : Record) : Except PyError Record := do
  let system0 ← pyGetStr ex "system"
  let system := "<|system|>\n" ++ system0 ++ "</s>\n"
  let input0 ← pyGetStr ex "input"
  let prompt := "<|user|>\n" ++ input0 ++ " </s>\n<|assistant|>\n"
  let chosen0 ← pyGetStr ex "chosen"
  let chosen := chosen0 ++ "</s>\n"
  let rejected0 ← pyGetStr ex "rejected"
  let rejected := rejected0 ++ "</s>\n"
  pure [("prompt", .str (system ++ prompt)),
        ("chosen", .str chosen),
        ("rejected", .str rejected)]

/-! ## The DPO notebook's filter lambda

```python
dpo_dataset = dpo_dataset.filter(
    lambda r:
        r["status"] != "tie"
        and r["chosen_score"] >= 8
        and not r["in_gsm8k_train"]
)
```
-/

/-- The DPO filter lambda, with Python's short-circuit `and`: the later
lookups happen only when the earlier conjuncts are truthy. -/
def dpoKeep (r : Record) : Except PyError Bool := do
  let status ← pyGet r "status"
  if pyNeStr status "tie" then
    let score ← pyGet r "chosen_score"
    let ge ← pyGeNum score 8
    if ge then
      let g ← pyGet r "in_gsm8k_train"
      pure (!pyTruthy g)
    else
      pure false
  else
    pure false

/-- Hugging Face `Dataset.filter`: keeps the records on which the
predicate is truthy, propagating the first exception the predicate
raises (an exception aborts the whole `filter` call). -/
def datasetFilter (p : Record → Except PyError Bool) :
    List Record → Except PyError (List Record)
  | [] => .ok []
  | r :: rs => do
      let b ← p r
      let rest ← datasetFilter p rs
      pure (if b then r :: rest else rest)

/-- Hugging Face `Dataset.map(f, remove_columns=<all column names>)`:
every original column is removed, so each output record is exactly the
dictionary `f` returns; an exception from `f` aborts the whole `map`. -/
def datasetMapRemoveAll (f : Record → Except PyError Record) :
    List Record → Except PyError (List Record)
  | [] => .ok []
  | r :: rs => do
      let r2 ← f r
      let rest ← datasetMapRemoveAll f rs
      pure (r2 :: rest)

/-- The DPO notebook's dataset pipeline downstream of `load_dataset`,
as a function of the raw dataset rows:
`dpo_dataset.filter(lambda …)` then
`dpo_dataset.map(format_prompt, remove_columns=dpo_dataset.column_names)`. -/
def dpoTrainDataset (raw : List Record) : Except PyError (List Record) := do
  let filtered ← datasetFilter dpoKeep raw
  datasetMapRemoveAll format_prompt filtered

/-! ## The instruction-tuning notebook's `format_prompt`

```python
template_tokenizer = AutoTokenizer.from_pretrained(
    "TinyLlama/TinyLlama-1.1B-Chat-v1.0"
)

def format_prompt(example):
    # Format answers
    chat = example["messages"]
    prompt = template_tokenizer.apply_chat_template(chat, tokenize=False)

    return {"text": prompt}
```
-/

/-- Model of the external library call
`template_tokenizer.apply_chat_template(chat, tokenize=False)` for the
TinyLlama-1.1B-Chat-v1.0 tokenizer: its chat template renders, for each
message in order, a role tag (`<|user|>`, `<|system|>` or
`<|assistant|>`), the message content and the end-of-sequence token
(messages with any other role render nothing); with the default
`add_generation_prompt=False` no trailing assistant tag is added.  The
body of this function is external library behaviour, not repository
code; the claims proved with it depend only on the rendering being a
per-message fold over `chat`. -/
def apply_chat_template (chat : List ChatMessage) : String :=
  match chat with
  | [] => ""
  | m :: rest =>
      (if m.role = "user" then "<|user|>\n" ++ m.content ++ "</s>\n"
       else if m.role = "system" then "<|system|>\n" ++ m.content ++ "</s>\n"
       else if m.role = "assistant" then "<|assistant|>\n" ++ m.content ++ "</s>\n"
       else "") ++ apply_chat_template rest

/-- The instruction-tuning notebook's `format_prompt`, translated line by
line: it reads `example["messages"]` and delegates the whole rendering to
the tokenizer's `apply_chat_template`. -/
def format_prompt_instr (ex : Record) : Except PyError Record := do
  let chat ← pyGetMsgs ex "messages"
  let prompt := apply_chat_template chat
  pure [("text", .str prompt)]

/-! ## Fixed string templates

The spec describes the notebooks' prompt formatting as string
concatenation of the example's fields with fixed template literals.  A
fixed template is a finite, fixed-arity interleaving of literal strings
and references to string-valued fields of the example; rendering it
concatenates the pieces in order, looking each referenced field up in
the example. -/

/-- One piece of a fixed string template: a literal, or a reference to a
string field of the example. -/
inductive TemplatePiece where
  | lit : String → TemplatePiece
  | field : String → TemplatePiece
deriving DecidableEq, Repr

/-- Render a fixed template against an example: concatenate the pieces,
reading each referenced field with Python lookup semantics. -/
def renderTemplate (t : List TemplatePiece) (ex : Record) : Except PyError String :=
  match t with
  | [] => .ok ""
  | .lit s :: rest => do
      let tail ← renderTemplate rest ex
      pure (s ++ tail)
  | .field k :: rest => do
      let v ← pyGetStr ex k
      let tail ← renderTemplate rest ex
      pure (v ++ tail)

/-- The claim that the instruction-tuning notebook's `format_prompt`
produces the value stored under its `text` key by concatenation of the
example's fields with fixed template literals: some fixed template
renders, on every example, exactly the `text` value (and fails exactly
when the function fails). -/
def InstrTextIsFixedTemplate : Prop :=
  ∃ t : List TemplatePiece, ∀ ex : Record,
    format_prompt_instr ex =
      (renderTemplate t ex).map (fun s => [("text", Value.str s)])

/-! ## Configuration objects

Both notebooks construct a `BitsAndBytesConfig` and pass it to
`AutoModelForCausalLM.from_pretrained`:

```python
bnb_config = BitsAndBytesConfig(
    load_in_4bit=True,
    bnb_4bit_quant_type="nf4",
    bnb_4bit_compute_dtype="float16",
    bnb_4bit_use_double_quant=True,
)
```
-/

/-- The fields of `transformers.BitsAndBytesConfig` the notebooks set. -/
structure BitsAndBytesConfig where
  load_in_4bit : Bool
  bnb_4bit_quant_type : String
  bnb_4bit_compute_dtype : String
  bnb_4bit_use_double_quant : Bool
deriving DecidableEq, Repr

/-- The `bnb_config` of the instruction-tuning notebook. -/
def sft_bnb_config : BitsAndBytesConfig :=
  ⟨true, "nf4", "float16", true⟩

/-- The `bnb_config` of the DPO notebook. -/
def dpo_bnb_config : BitsAndBytesConfig :=
  ⟨true, "nf4", "float16", true⟩

/-- The keyword arguments of an `AutoModelForCausalLM.from_pretrained`
call: the model name or path, `device_map`, the optional
`quantization_config`, and `trust_remote_code`. -/
structure FromPretrainedArgs where
  name_or_path : String
  device_map : String
  quantization_config : Option BitsAndBytesConfig
  trust_remote_code : Bool
deriving DecidableEq, Repr

/-- The instruction-tuning notebook's model-loading call:
`AutoModelForCausalLM.from_pretrained(model_name, device_map="auto",
quantization_config=bnb_config)`. -/
def sft_model_load : FromPretrainedArgs :=
  ⟨"TinyLlama/TinyLlama-1.1B-intermediate-step-1431k-3T", "auto",
   some sft_bnb_config, false⟩

/-- The DPO notebook's model-loading call:
`AutoModelForCausalLM.from_pretrained(model_name, device_map="auto",
quantization_config=bnb_config, trust_remote_code=True)`. -/
def dpo_model_load : FromPretrainedArgs :=
  ⟨"TinyLlama/TinyLlama-1.1B-Chat-v1.0", "auto",
   some dpo_bnb_config, true⟩

/-- The keyword arguments of the DPO notebook's `DPOTrainer(...)` call
that are plain data: `ref_model=None`, `beta=0.1`,
`max_prompt_length=512`, `max_length=512`. -/
structure DPOTrainerArgs where
  ref_model : Option String
  beta : ℚ
  max_prompt_length : ℕ
  max_length : ℕ
deriving DecidableEq, Repr

/-- The DPO notebook's `DPOTrainer` keyword arguments as transcribed. -/
def dpo_trainer_args : DPOTrainerArgs :=
  ⟨none, 1 / 10, 512, 512⟩

/-! ## The notebooks' top-level call sequences

Each notebook is a straight-line script.  We transcribe its top-level
library calls, in top-to-bottom cell order, as a list of statements:
`lhs` is the variable the result is assigned to (if any), `fn` the
library entry point, `args` the variables and literals passed.  Import
statements, function definitions, plain literal assignments (their
values are inlined into the call that uses them), attribute assignments
such as `model.config.use_cache = False`, and the DPO notebook's
commented-out cell (a bare string literal, a no-op) contribute no
statement. -/

/-- One top-level statement of a notebook: an optional assignment target,
the called library entry point, and its arguments. -/
structure Stmt where
  lhs : Option String
  fn : String
  args : List String
deriving DecidableEq, Repr

/-- The instruction-tuning notebook (`src/unnamed/part_000`) as a
statement list, in execution order. -/
def sftTrace : List Stmt := [
  ⟨some "template_tokenizer", "AutoTokenizer.from_pretrained",
    ["TinyLlama/TinyLlama-1.1B-Chat-v1.0"]⟩,
  ⟨some "dataset", "load_dataset", ["HuggingFaceH4/ultrachat_200k", "test_sft"]⟩,
  ⟨some "dataset", "shuffle", ["dataset", "42"]⟩,
  ⟨some "dataset", "select", ["dataset", "3000"]⟩,
  ⟨some "dataset", "map", ["dataset", "format_prompt"]⟩,
  ⟨none, "print", ["dataset"]⟩,
  ⟨some "bnb_config", "BitsAndBytesConfig", []⟩,
  ⟨some "model", "AutoModelForCausalLM.from_pretrained",
    ["TinyLlama/TinyLlama-1.1B-intermediate-step-1431k-3T", "bnb_config"]⟩,
  ⟨some "tokenizer", "AutoTokenizer.from_pretrained",
    ["TinyLlama/TinyLlama-1.1B-intermediate-step-1431k-3T"]⟩,
  ⟨some "peft_config", "LoraConfig", []⟩,
  ⟨some "model", "prepare_model_for_kbit_training", ["model"]⟩,
  ⟨some "model", "get_peft_model", ["model", "peft_config"]⟩,
  ⟨some "training_arguments", "TrainingArguments", ["./results"]⟩,
  ⟨some "trainer", "SFTTrainer",
    ["model", "dataset", "tokenizer", "training_arguments", "peft_config"]⟩,
  ⟨none, "train", ["trainer"]⟩,
  ⟨none, "save_pretrained", ["trainer.model", "TinyLlama-1.1B-qlora"]⟩,
  ⟨some "model", "AutoPeftModelForCausalLM.from_pretrained", ["TinyLlama-1.1B-qlora"]⟩,
  ⟨some "merged_model", "merge_and_unload", ["model"]⟩,
  ⟨some "pipe", "pipeline", ["text-generation", "merged_model", "tokenizer"]⟩,
  ⟨none, "generate", ["pipe", "prompt"]⟩,
  ⟨none, "print", ["generated_text"]⟩]

/-- The DPO notebook (`src/2-fine-tuning-PPO-DPO/3-Fine-Tuning-DPO.ipynb`)
as a statement list, in execution order. -/
def dpoTrace : List Stmt := [
  ⟨some "dpo_dataset", "load_dataset", ["argilla/distilabel-intel-orca-dpo-pairs", "train"]⟩,
  ⟨some "dpo_dataset", "filter", ["dpo_dataset"]⟩,
  ⟨some "dpo_dataset", "map", ["dpo_dataset", "format_prompt"]⟩,
  ⟨some "bnb_config", "BitsAndBytesConfig", []⟩,
  ⟨some "tokenizer", "AutoTokenizer.from_pretrained", ["TinyLlama/TinyLlama-1.1B-Chat-v1.0"]⟩,
  ⟨some "model", "AutoModelForCausalLM.from_pretrained",
    ["TinyLlama/TinyLlama-1.1B-Chat-v1.0", "bnb_config"]⟩,
  ⟨some "peft_config", "LoraConfig", []⟩,
  ⟨some "model", "prepare_model_for_kbit_training", ["model"]⟩,
  ⟨some "model", "get_peft_model", ["model", "peft_config"]⟩,
  ⟨some "training_arguments", "DPOConfig", ["./dpo-tinyllama"]⟩,
  ⟨some "dpo_trainer", "DPOTrainer",
    ["model", "None", "training_arguments", "dpo_dataset", "tokenizer", "peft_config"]⟩,
  ⟨none, "train", ["dpo_trainer"]⟩,
  ⟨some "log", "DataFrame", ["dpo_trainer.state.log_history"]⟩,
  ⟨none, "plt.plot", ["log_t"]⟩,
  ⟨none, "plt.plot", ["log_e"]⟩,
  ⟨none, "plt.title", ["Model Losses"]⟩,
  ⟨none, "plt.legend", []⟩,
  ⟨none, "plt.show", []⟩,
  ⟨none, "save_model", ["dpo_trainer", "./dpo-tinyllama"]⟩,
  ⟨some "merged_model", "merge_and_unload", ["model"]⟩,
  ⟨none, "save_pretrained", ["merged_model", "./dpo-tinyllama-merged"]⟩,
  ⟨none, "save_pretrained", ["tokenizer", "./dpo-tinyllama-merged"]⟩,
  ⟨some "finetuned_model", "AutoModelForCausalLM.from_pretrained", ["./dpo-tinyllama-merged"]⟩,
  ⟨some "finetuned_tokenizer", "AutoTokenizer.from_pretrained", ["./dpo-tinyllama-merged"]⟩,
  ⟨some "pipe", "pipeline", ["text-generation", "finetuned_model", "finetuned_tokenizer"]⟩,
  ⟨none, "generate", ["pipe", "prompt"]⟩,
  ⟨none, "print", ["generated_text"]⟩]

/-- The positions at which a trace calls a given entry point. -/
def callIdxs (t : List Stmt) (f : String) : List ℕ :=
  (t.enum.filter (fun p => p.2.fn = f)).map (fun p => p.1)

/-- Every position in the first list is strictly before every position in
the second. -/
def allBefore (xs ys : List ℕ) : Bool :=
  xs.all (fun i => ys.all (fun j => i < j))

/-- The positions at which a trace constructs a configuration object
(`BitsAndBytesConfig`, `LoraConfig`, `TrainingArguments`, `DPOConfig`). -/
def configIdxs (t : List Stmt) : List ℕ :=
  callIdxs t "BitsAndBytesConfig" ++ callIdxs t "LoraConfig" ++
  callIdxs t "TrainingArguments" ++ callIdxs t "DPOConfig"

/-- The phase ordering the spec describes: the dataset is loaded and
mapped, then the configuration objects are constructed, then `train()`
is invoked, then `merge_and_unload()`, and only after that `pipeline()`
and the generation call; each phase is present. -/
def phaseOrdered (t : List Stmt) : Bool :=
  let loads := callIdxs t "load_dataset"
  let maps := callIdxs t "map"
  let cfgs := configIdxs t
  let trains := callIdxs t "train"
  let merges := callIdxs t "merge_and_unload"
  let pipes := callIdxs t "pipeline"
  let gens := callIdxs t "generate"
  !loads.isEmpty && !maps.isEmpty && !cfgs.isEmpty && !trains.isEmpty &&
  !merges.isEmpty && !pipes.isEmpty && !gens.isEmpty &&
  allBefore loads maps && allBefore maps cfgs && allBefore cfgs trains &&
  allBefore trains merges && allBefore merges pipes && allBefore pipes gens

/-- The `merge_and_unload` calls of a trace, with their positions. -/
def mergeStmts (t : List Stmt) : List (ℕ × Stmt) :=
  t.enum.filter (fun p => p.2.fn = "merge_and_unload")

/-- The directories a variable is saved to by a `save_pretrained` call
strictly after position `i`. -/
def saveDirsAfter (t : List Stmt) (v : String) (i : ℕ) : List String :=
  (t.enum.filter (fun p =>
    decide (i < p.1) && p.2.fn = "save_pretrained" && p.2.args.head? = some v)).map
    (fun p => p.2.args.getD 1 "")

/-- Whether some `pipeline(...)` call strictly after position `i` takes
the variable `v` as an argument. -/
def inPipelineAfter (t : List Stmt) (v : String) (i : ℕ) : Bool :=
  t.enum.any (fun p => decide (i < p.1) && p.2.fn = "pipeline" && p.2.args.contains v)

/-- The variables assigned, strictly after position `i`, from a
`from_pretrained`-style load that takes `dir` as an argument. -/
def loadedFromAfter (t : List Stmt) (dir : String) (i : ℕ) : List String :=
  (t.enum.filter (fun p =>
    decide (i < p.1) &&
    (p.2.fn = "AutoModelForCausalLM.from_pretrained" ||
     p.2.fn = "AutoPeftModelForCausalLM.from_pretrained") &&
    p.2.args.contains dir)).filterMap (fun p => p.2.lhs)

/-- The adapter-merge claim, as stated, on one notebook trace: exactly
one `merge_and_unload` call, after every `train()` call, whose result
variable is subsequently saved and used for generation (passed to a
`pipeline(...)` call directly, or reloaded from a directory it was saved
to by a model-loading call whose result is passed to `pipeline(...)`). -/
def mergeSavedAndUsed (t : List Stmt) : Bool :=
  match mergeStmts t with
  | [(i, s)] =>
      match s.lhs with
      | some v =>
          allBefore (callIdxs t "train") [i] &&
          !(saveDirsAfter t v i).isEmpty &&
          (inPipelineAfter t v i ||
           (saveDirsAfter t v i).any (fun dir =>
             (loadedFromAfter t dir i).any (fun w => inPipelineAfter t w i)))
      | none => false
  | _ => false

/-- The weaker property the instruction-tuning notebook satisfies:
exactly one `merge_and_unload` call, after every `train()` call, whose
result variable is passed directly to `pipeline(...)` but is never
saved. -/
def mergeUsedNeverSaved (t : List Stmt) : Bool :=
  match mergeStmts t with
  | [(i, s)] =>
      match s.lhs with
      | some v =>
          allBefore (callIdxs t "train") [i] &&
          (saveDirsAfter t v 0).isEmpty &&
          inPipelineAfter t v i
      | none => false
  | _ => false

/-! ## Field predicates and accessors

Typing predicates on records (the loaded datasets have a fixed schema:
`status` is a string, `chosen_score` a number, `in_gsm8k_train` a
boolean, the prompt fields strings), and the accessors used to state the
filter's specification. -/

/-- The record holds a string at key `k`. -/
def hasStrField (r : Record) (k : String) : Bool :=
  match recGet r k with
  | some (.str _) => true
  | _ => false

/-- The record holds a number at key `k`. -/
def hasNumField (r : Record) (k : String) : Bool :=
  match recGet r k with
  | some (.num _) => true
  | _ => false

/-- The record holds a boolean at key `k`. -/
def hasBoolField (r : Record) (k : String) : Bool :=
  match recGet r k with
  | some (.bool _) => true
  | _ => false

/-- The string at key `k` (default `""`). -/
def strField (r : Record) (k : String) : String :=
  match recGet r k with
  | some (.str s) => s
  | _ => ""

/-- The number at key `k` (default `0`). -/
def numField (r : Record) (k : String) : ℚ :=
  match recGet r k with
  | some (.num q) => q
  | _ => 0

/-- The boolean at key `k` (default `false`). -/
def boolField (r : Record) (k : String) : Bool :=
  match recGet r k with
  | some (.bool b) => b
  | _ => false

/-- The retention condition of the DPO filter, as the spec states it:
`status` is not `"tie"`, `chosen_score` is at least 8, and
`in_gsm8k_train` is false. -/
def dpoKeepSpec (r : Record) : Prop :=
  strField r "status" ≠ "tie" ∧ 8 ≤ numField r "chosen_score" ∧
    boolField r "in_gsm8k_train" = false

instance (r : Record) : Decidable (dpoKeepSpec r) := by
  unfold dpoKeepSpec
  infer_instance

/-- String suffix test (on the character lists). -/
def strEndsWith (s suf : String) : Bool :=
  decide (suf.data <:+ s.data)

/-! ## Helper lemmas -/

theorem exc_bind_ok {α β : Type} (a : α) (f : α → Except PyError β) :
    (Except.ok a : Except PyError α) >>= f = f a := rfl

theorem exc_bind_err {α β : Type} (e : PyError) (f : α → Except PyError β) :
    (Except.error e : Except PyError α) >>= f = Except.error e := rfl

theorem exc_pure {α : Type} (a : α) :
    (pure a : Except PyError α) = Except.ok a := rfl

theorem hasStrField_iff (r : Record) (k : String) :
    hasStrField r k = true ↔ ∃ s, recGet r k = some (.str s) := by
  unfold hasStrField
  cases h : recGet r k with
  | none => simp
  | some v => cases v <;> simp

theorem hasNumField_iff (r : Record) (k : String) :
    hasNumField r k = true ↔ ∃ q, recGet r k = some (.num q) := by
  unfold hasNumField
  cases h : recGet r k with
  | none => simp
  | some v => cases v <;> simp

theorem hasBoolField_iff (r : Record) (k : String) :
    hasBoolField r k = true ↔ ∃ b, recGet r k = some (.bool b) := by
  unfold hasBoolField
  cases h : recGet r k with
  | none => simp
  | some v => cases v <;> simp

theorem pyGet_eq {r : Record} {k : String} {v : Value}
    (h : recGet r k = some v) : pyGet r k = .ok v := by
  unfold pyGet
  rw [h]

theorem pyGetStr_eq {r : Record} {k : String} {s : String}
    (h : recGet r k = some (.str s)) : pyGetStr r k = .ok s := by
  unfold pyGetStr
  rw [h]

theorem strField_eq {r : Record} {k : String} {s : String}
    (h : recGet r k = some (.str s)) : strField r k = s := by
  unfold strField
  rw [h]

theorem numField_eq {r : Record} {k : String} {q : ℚ}
    (h : recGet r k = some (.num q)) : numField r k = q := by
  unfold numField
  rw [h]

theorem boolField_eq {r : Record} {k : String} {b : Bool}
    (h : recGet r k = some (.bool b)) : boolField r k = b := by
  unfold boolField
  rw [h]

/-- On a record that is well typed at the three filter columns, the
embedded filter lambda raises nothing and returns exactly the decision
of the spec's retention condition. -/
theorem dpoKeep_eq_spec (r : Record)
    (h1 : hasStrField r "status" = true)
    (h2 : hasNumField r "chosen_score" = true)
    (h3 : hasBoolField r "in_gsm8k_train" = true) :
    dpoKeep r = .ok (decide (dpoKeepSpec r)) := by
  obtain ⟨s, hs⟩ := (hasStrField_iff r "status").mp h1
  obtain ⟨q, hq⟩ := (hasNumField_iff r "chosen_score").mp h2
  obtain ⟨b, hb⟩ := (hasBoolField_iff r "in_gsm8k_train").mp h3
  unfold dpoKeepSpec
  simp only [strField_eq hs, numField_eq hq, boolField_eq hb]
  unfold dpoKeep
  rw [pyGet_eq hs, pyGet_eq hq, pyGet_eq hb]
  simp only [exc_bind_ok, exc_pure, pyNeStr, pyGeNum, pyTruthy]
  by_cases hst : s = "tie"
  · simp [hst]
  · by_cases hge : (8 : ℚ) ≤ q
    · cases b <;> simp [hst, hge, exc_bind_ok, exc_pure]
    · simp [hst, hge, exc_bind_ok, exc_pure]

theorem strEndsWith_append (a b suf : String) (h : strEndsWith b suf = true) :
    strEndsWith (a ++ b) suf = true := by
  simp only [strEndsWith, decide_eq_true_iff] at h ⊢
  rw [String.data_append]
  exact h.trans (List.suffix_append a.data b.data)

/-- `datasetFilter` with an exception-free pointwise predicate is
`List.filter`. -/
theorem datasetFilter_eq (p : Record → Except PyError Bool) (f : Record → Bool)
    (ds : List Record) (h : ∀ r ∈ ds, p r = .ok (f r)) :
    datasetFilter p ds = .ok (ds.filter f) := by
  induction ds with
  | nil => rfl
  | cons r rs ih =>
      have hr := h r (List.mem_cons_self r rs)
      have hrs := ih (fun x hx => h x (List.mem_cons_of_mem _ hx))
      simp only [datasetFilter, hr, hrs, exc_bind_ok, exc_pure, List.filter_cons]

/-- Whatever `datasetFilter` returns came from the input list. -/
theorem datasetFilter_subset (p : Record → Except PyError Bool)
    (ds out : List Record) (h : datasetFilter p ds = .ok out) :
    ∀ r ∈ out, r ∈ ds := by
  induction ds generalizing out with
  | nil =>
      simp only [datasetFilter] at h
      cases h
      simp
  | cons r rs ih =>
      simp only [datasetFilter] at h
      cases hp : p r with
      | error e => rw [hp] at h; exact absurd h (by simp [exc_bind_err])
      | ok b =>
          rw [hp] at h
          simp only [exc_bind_ok] at h
          cases hrest : datasetFilter p rs with
          | error e => rw [hrest] at h; exact absurd h (by simp [exc_bind_err])
          | ok rest =>
              rw [hrest] at h
              simp only [exc_bind_ok, exc_pure, Except.ok.injEq] at h
              intro x hx
              rw [← h] at hx
              cases b with
              | true =>
                  rcases List.mem_cons.mp (by simpa using hx) with h1 | h1
                  · exact List.mem_cons.mpr (Or.inl h1)
                  · exact List.mem_cons.mpr (Or.inr (ih rest hrest x h1))
              | false => exact List.mem_cons.mpr (Or.inr (ih rest hrest x (by simpa using hx)))

/-- Every record `datasetMapRemoveAll` returns is the image of some input
record. -/
theorem datasetMapRemoveAll_mem (f : Record → Except PyError Record)
    (ds out : List Record) (h : datasetMapRemoveAll f ds = .ok out) :
    ∀ r ∈ out, ∃ ex ∈ ds, f ex = .ok r := by
  induction ds generalizing out with
  | nil =>
      simp only [datasetMapRemoveAll] at h
      cases h
      simp
  | cons r rs ih =>
      simp only [datasetMapRemoveAll] at h
      cases hf : f r with
      | error e => rw [hf] at h; exact absurd h (by simp [exc_bind_err])
      | ok r2 =>
          rw [hf] at h
          simp only [exc_bind_ok] at h
          cases hrest : datasetMapRemoveAll f rs with
          | error e => rw [hrest] at h; exact absurd h (by simp [exc_bind_err])
          | ok rest =>
              rw [hrest] at h
              simp only [exc_bind_ok, exc_pure, Except.ok.injEq] at h
              intro x hx
              rw [← h] at hx
              rcases List.mem_cons.mp hx with h1 | h1
              · exact ⟨r, List.mem_cons_self r rs, h1 ▸ hf⟩
              · obtain ⟨ex, hex, hfex⟩ := ih rest hrest x h1
                exact ⟨ex, List.mem_cons_of_mem _ hex, hfex⟩

/-- The output of the DPO `format_prompt` on a record holding strings at
the four prompt keys, with the grouping of the source. -/
theorem format_prompt_eq_of {ex : Record} {s i c r : String}
    (hs : recGet ex "system" = some (.str s))
    (hi : recGet ex "input" = some (.str i))
    (hc : recGet ex "chosen" = some (.str c))
    (hr : recGet ex "rejected" = some (.str r)) :
    format_prompt ex = .ok
      [("prompt", .str (("<|system|>\n" ++ s ++ "</s>\n") ++
          ("<|user|>\n" ++ i ++ " </s>\n<|assistant|>\n"))),
       ("chosen", .str (c ++ "</s>\n")),
       ("rejected", .str (r ++ "</s>\n"))] := by
  unfold format_prompt
  simp only [pyGetStr_eq hs, pyGetStr_eq hi, pyGetStr_eq hc, pyGetStr_eq hr,
    exc_bind_ok, exc_pure]

theorem pyGetStr_congr {ex1 ex2 : Record} {k : String}
    (h : recGet ex1 k = recGet ex2 k) : pyGetStr ex1 k = pyGetStr ex2 k := by
  unfold pyGetStr
  rw [h]

theorem pyGet_congr {ex1 ex2 : Record} {k : String}
    (h : recGet ex1 k = recGet ex2 k) : pyGet ex1 k = pyGet ex2 k := by
  unfold pyGet
  rw [h]

/-! ## The claims -/

/-- C1: on a dataset whose records are well typed at the three filter
columns, the DPO filter retains a record if and only if its `status` is
not `"tie"`, its `chosen_score` is at least 8, and its `in_gsm8k_train`
is false; a record failing any of the three conditions is not in the
filtered dataset. -/
theorem dpo_filter_retains_iff (ds : List Record)
    (h : ∀ r ∈ ds,
      hasStrField r "status" = true ∧ hasNumField r "chosen_score" = true ∧
        hasBoolField r "in_gsm8k_train" = true) :
    ∃ out, datasetFilter dpoKeep ds = .ok out ∧
      ∀ r : Record, (r ∈ out ↔ r ∈ ds ∧ dpoKeepSpec r) := by
  refine ⟨ds.filter (fun r => decide (dpoKeepSpec r)), ?_, ?_⟩
  · exact datasetFilter_eq _ _ ds
      (fun r hr => dpoKeep_eq_spec r (h r hr).1 (h r hr).2.1 (h r hr).2.2)
  · intro r
    simp [List.mem_filter]

/-- A concrete run of C1: a four-record dataset exercising retention and
all three rejection reasons. -/
def c1ds : List Record :=
  [[("status", .str "approved"), ("chosen_score", .num 9),
    ("in_gsm8k_train", .bool false), ("system", .str "S"), ("input", .str "I"),
    ("chosen", .str "C"), ("rejected", .str "R")],
   [("status", .str "tie"), ("chosen_score", .num 10), ("in_gsm8k_train", .bool false)],
   [("status", .str "approved"), ("chosen_score", .num 7), ("in_gsm8k_train", .bool false)],
   [("status", .str "approved"), ("chosen_score", .num 9), ("in_gsm8k_train", .bool true)]]

theorem dpo_filter_retains_iff_witness :
    ∃ out, datasetFilter dpoKeep c1ds = .ok out ∧
      ∀ r : Record, (r ∈ out ↔ r ∈ c1ds ∧ dpoKeepSpec r) :=
  dpo_filter_retains_iff c1ds (by decide)

/-- C2: on an example holding strings at `system`, `input`, `chosen` and
`rejected`, the DPO notebook's `format_prompt` returns exactly the
dictionary of the three template strings, with a single space before
the user turn's end-of-sequence token and none before the completions'. -/
theorem dpo_format_prompt_exact (ex : Record) (s i c r : String)
    (hs : recGet ex "system" = some (.str s))
    (hi : recGet ex "input" = some (.str i))
    (hc : recGet ex "chosen" = some (.str c))
    (hr : recGet ex "rejected" = some (.str r)) :
    format_prompt ex = .ok
      [("prompt", .str ("<|system|>\n" ++ s ++ "</s>\n" ++ "<|user|>\n" ++ i ++
          " </s>\n<|assistant|>\n")),
       ("chosen", .str (c ++ "</s>\n")),
       ("rejected", .str (r ++ "</s>\n"))] := by
  rw [format_prompt_eq_of hs hi hc hr]
  simp only [String.append_assoc]

/-- A concrete example record for the formatting claims. -/
def c2ex : Record :=
  [("system", .str "SYS"), ("input", .str "QUERY"),
   ("chosen", .str "GOOD"), ("rejected", .str "BAD")]

theorem dpo_format_prompt_exact_witness :
    format_prompt c2ex = .ok
      [("prompt", .str "<|system|>\nSYS</s>\n<|user|>\nQUERY </s>\n<|assistant|>\n"),
       ("chosen", .str "GOOD</s>\n"),
       ("rejected", .str "BAD</s>\n")] :=
  dpo_format_prompt_exact c2ex "SYS" "QUERY" "GOOD" "BAD" rfl rfl rfl rfl

/-- C8: the DPO notebook's data-processing logic is deterministic and
stateless: `format_prompt` depends only on the example's `system`,
`input`, `chosen` and `rejected` fields, and the filter lambda only on
the record's `status`, `chosen_score` and `in_gsm8k_train` fields — two
records agreeing there get equal results, so equal inputs in particular
get equal results. -/
theorem dpo_logic_extensional (ex1 ex2 r1 r2 : Record)
    (hsys : recGet ex1 "system" = recGet ex2 "system")
    (hinp : recGet ex1 "input" = recGet ex2 "input")
    (hcho : recGet ex1 "chosen" = recGet ex2 "chosen")
    (hrej : recGet ex1 "rejected" = recGet ex2 "rejected")
    (hst : recGet r1 "status" = recGet r2 "status")
    (hsc : recGet r1 "chosen_score" = recGet r2 "chosen_score")
    (hg : recGet r1 "in_gsm8k_train" = recGet r2 "in_gsm8k_train") :
    format_prompt ex1 = format_prompt ex2 ∧ dpoKeep r1 = dpoKeep r2 := by
  constructor
  · unfold format_prompt
    simp only [pyGetStr_congr hsys, pyGetStr_congr hinp,
      pyGetStr_congr hcho, pyGetStr_congr hrej]
  · unfold dpoKeep
    simp only [pyGet_congr hst, pyGet_congr hsc, pyGet_congr hg]

/-- The record `c2ex` with its bindings permuted and an extra unrelated
column: the four prompt fields agree with `c2ex`. -/
def c8ex2 : Record :=
  [("rejected", .str "BAD"), ("chosen", .str "GOOD"),
   ("note", .num 3), ("input", .str "QUERY"), ("system", .str "SYS")]

/-- A well-typed filter record. -/
def c8r1 : Record :=
  [("status", .str "approved"), ("chosen_score", .num 9),
   ("in_gsm8k_train", .bool false), ("extra", .str "e")]

/-- The record `c8r1` permuted, without the unrelated column. -/
def c8r2 : Record :=
  [("in_gsm8k_train", .bool false), ("chosen_score", .num 9),
   ("status", .str "approved")]

theorem dpo_logic_extensional_witness :
    format_prompt c2ex = format_prompt c8ex2 ∧ dpoKeep c8r1 = dpoKeep c8r2 :=
  dpo_logic_extensional c2ex c8ex2 c8r1 c8r2 rfl rfl rfl rfl rfl rfl rfl

theorem recGet_of_pyGetStr_ok {ex : Record} {k s : String}
    (h : pyGetStr ex k = .ok s) : recGet ex k = some (.str s) := by
  unfold pyGetStr at h
  cases hr : recGet ex k with
  | none => rw [hr] at h; simp at h
  | some v =>
      rw [hr] at h
      cases v with
      | str t => injection h with h2; rw [h2]
      | num q => simp at h
      | bool b => simp at h
      | msgs m => simp at h

theorem pyGetStr_ok_or_keyErr (ex : Record) (k : String)
    (h : hasStrField ex k = true ∨ recGet ex k = none) :
    (∃ s, pyGetStr ex k = .ok s) ∨ pyGetStr ex k = .error (.keyError k) := by
  rcases h with h | h
  · obtain ⟨s, hs⟩ := (hasStrField_iff ex k).mp h
    exact Or.inl ⟨s, pyGetStr_eq hs⟩
  · right
    unfold pyGetStr
    rw [h]

/-- If any of the four prompt keys is absent, the DPO `format_prompt`
raises some exception. -/
theorem format_prompt_err_of_absent (ex : Record) (k : String)
    (hk : k ∈ (["system", "input", "chosen", "rejected"] : List String))
    (h : recGet ex k = none) :
    ∃ e, format_prompt ex = .error e := by
  cases h1 : pyGetStr ex "system" with
  | error e => exact ⟨e, by simp [format_prompt, h1, exc_bind_err]⟩
  | ok s1 =>
    cases h2 : pyGetStr ex "input" with
    | error e => exact ⟨e, by simp [format_prompt, h1, h2, exc_bind_ok, exc_bind_err]⟩
    | ok s2 =>
      cases h3 : pyGetStr ex "chosen" with
      | error e => exact ⟨e, by simp [format_prompt, h1, h2, h3, exc_bind_ok, exc_bind_err]⟩
      | ok s3 =>
        cases h4 : pyGetStr ex "rejected" with
        | error e =>
            exact ⟨e, by simp [format_prompt, h1, h2, h3, h4, exc_bind_ok, exc_bind_err]⟩
        | ok s4 =>
            exfalso
            fin_cases hk
            · rw [recGet_of_pyGetStr_ok h1] at h; cases h
            · rw [recGet_of_pyGetStr_ok h2] at h; cases h
            · rw [recGet_of_pyGetStr_ok h3] at h; cases h
            · rw [recGet_of_pyGetStr_ok h4] at h; cases h

/-- If each of the four prompt keys is either string-valued or absent,
and at least one is absent, the DPO `format_prompt` raises a `KeyError`. -/
theorem format_prompt_keyErr_of_absent (ex : Record)
    (htyped : ∀ k ∈ (["system", "input", "chosen", "rejected"] : List String),
        hasStrField ex k = true ∨ recGet ex k = none)
    (habsent : ∃ k ∈ (["system", "input", "chosen", "rejected"] : List String),
        recGet ex k = none) :
    ∃ k2, format_prompt ex = .error (.keyError k2) := by
  rcases pyGetStr_ok_or_keyErr ex "system" (htyped "system" (by simp)) with ⟨s1, h1⟩ | h1
  · rcases pyGetStr_ok_or_keyErr ex "input" (htyped "input" (by simp)) with ⟨s2, h2⟩ | h2
    · rcases pyGetStr_ok_or_keyErr ex "chosen" (htyped "chosen" (by simp)) with ⟨s3, h3⟩ | h3
      · rcases pyGetStr_ok_or_keyErr ex "rejected" (htyped "rejected" (by simp)) with
          ⟨s4, h4⟩ | h4
        · exfalso
          obtain ⟨k, hk, hnone⟩ := habsent
          fin_cases hk
          · rw [recGet_of_pyGetStr_ok h1] at hnone; cases hnone
          · rw [recGet_of_pyGetStr_ok h2] at hnone; cases hnone
          · rw [recGet_of_pyGetStr_ok h3] at hnone; cases hnone
          · rw [recGet_of_pyGetStr_ok h4] at hnone; cases hnone
        · exact ⟨"rejected", by simp [format_prompt, h1, h2, h3, h4, exc_bind_ok, exc_bind_err]⟩
      · exact ⟨"chosen", by simp [format_prompt, h1, h2, h3, exc_bind_ok, exc_bind_err]⟩
    · exact ⟨"input", by simp [format_prompt, h1, h2, exc_bind_ok, exc_bind_err]⟩
  · exact ⟨"system", by simp [format_prompt, h1, exc_bind_err]⟩

/-- C10 (amended): on an example holding strings at all four prompt
keys, the DPO `format_prompt` never fails; its `chosen` and `rejected`
strings end with the end-of-sequence suffix, while its `prompt` string
ends with the assistant tag.  If any of the four keys is absent the
function fails, and the failure is a `KeyError` whenever the keys among
the four that are present hold strings (in particular on records of the
dataset's schema). -/
theorem dpo_format_prompt_safety (ex : Record) :
    ((hasStrField ex "system" && hasStrField ex "input" &&
        hasStrField ex "chosen" && hasStrField ex "rejected") = true →
      ∃ p c r : String,
        format_prompt ex = .ok
          [("prompt", .str p), ("chosen", .str c), ("rejected", .str r)] ∧
          strEndsWith p "<|assistant|>\n" = true ∧
          strEndsWith c "</s>\n" = true ∧ strEndsWith r "</s>\n" = true) ∧
    (∀ k ∈ (["system", "input", "chosen", "rejected"] : List String),
      recGet ex k = none → ∃ e, format_prompt ex = .error e) ∧
    ((∀ k ∈ (["system", "input", "chosen", "rejected"] : List String),
        hasStrField ex k = true ∨ recGet ex k = none) →
      (∃ k ∈ (["system", "input", "chosen", "rejected"] : List String),
        recGet ex k = none) →
      ∃ k2, format_prompt ex = .error (.keyError k2)) := by
  refine ⟨?_, ?_, ?_⟩
  · intro h
    simp only [Bool.and_eq_true] at h
    obtain ⟨⟨⟨hs0, hi0⟩, hc0⟩, hr0⟩ := h
    obtain ⟨s, hs⟩ := (hasStrField_iff ex "system").mp hs0
    obtain ⟨i, hi⟩ := (hasStrField_iff ex "input").mp hi0
    obtain ⟨c, hc⟩ := (hasStrField_iff ex "chosen").mp hc0
    obtain ⟨r, hr⟩ := (hasStrField_iff ex "rejected").mp hr0
    refine ⟨_, _, _, format_prompt_eq_of hs hi hc hr, ?_, ?_, ?_⟩
    · exact strEndsWith_append _ _ _ (strEndsWith_append _ _ _ (by decide))
    · exact strEndsWith_append _ _ _ (by decide)
    · exact strEndsWith_append _ _ _ (by decide)
  · intro k hk hnone
    exact format_prompt_err_of_absent ex k hk hnone
  · intro htyped habsent
    exact format_prompt_keyErr_of_absent ex htyped habsent

/-- A record missing `rejected` on which the first failure is a
`TypeError` (its `system` value is a boolean), not a lookup error. -/
def c10badex : Record :=
  [("system", .bool true), ("input", .str "I"), ("chosen", .str "C")]

/-- C10 counterexample: on the concrete example `c2ex` the returned
`prompt` string does not end with the end-of-sequence suffix, and on the
concrete record `c10badex`, which lacks the `rejected` key, the function
fails with a `TypeError` rather than a lookup error. -/
theorem dpo_format_prompt_safety_counterexample :
    format_prompt c2ex = .ok
      [("prompt", .str "<|system|>\nSYS</s>\n<|user|>\nQUERY </s>\n<|assistant|>\n"),
       ("chosen", .str "GOOD</s>\n"), ("rejected", .str "BAD</s>\n")] ∧
    strEndsWith "<|system|>\nSYS</s>\n<|user|>\nQUERY </s>\n<|assistant|>\n" "</s>\n" = false ∧
    recGet c10badex "rejected" = none ∧
    format_prompt c10badex = .error .typeError :=
  ⟨rfl, by decide, rfl, rfl⟩

/-- Any successful output of the DPO `format_prompt` has exactly the
columns `prompt`, `chosen`, `rejected`, in that order. -/
theorem format_prompt_keys {ex r : Record} (h : format_prompt ex = .ok r) :
    recKeys r = ["prompt", "chosen", "rejected"] := by
  unfold format_prompt at h
  cases h1 : pyGetStr ex "system" with
  | error e => rw [h1] at h; simp [exc_bind_err] at h
  | ok s1 =>
      rw [h1] at h
      simp only [exc_bind_ok] at h
      cases h2 : pyGetStr ex "input" with
      | error e => rw [h2] at h; simp [exc_bind_err] at h
      | ok s2 =>
          rw [h2] at h
          simp only [exc_bind_ok] at h
          cases h3 : pyGetStr ex "chosen" with
          | error e => rw [h3] at h; simp [exc_bind_err] at h
          | ok s3 =>
              rw [h3] at h
              simp only [exc_bind_ok] at h
              cases h4 : pyGetStr ex "rejected" with
              | error e => rw [h4] at h; simp [exc_bind_err] at h
              | ok s4 =>
                  rw [h4] at h
                  simp only [exc_bind_ok, exc_pure, Except.ok.injEq] at h
                  rw [← h]
                  rfl

/-- A key outside a record's column list looks up to nothing. -/
theorem recGet_none_of_not_mem_keys {r : Record} {k : String}
    (h : k ∉ recKeys r) : recGet r k = none := by
  induction r with
  | nil => rfl
  | cons p rest ih =>
      cases p with
      | mk k2 v =>
          simp only [recKeys, List.mem_cons, not_or] at h
          have hne : ¬(k2 = k) := fun he => h.1 he.symm
          simp only [recGet, if_neg hne, ih h.2]

/-- C5: the DPO training stage is reward-model-free and preference-pair
shaped: the `DPOTrainer` keyword arguments carry `ref_model = None`, and
every record of the train dataset handed to the trainer is the
`format_prompt` image of some raw record — a prompt, chosen, rejected
triple. -/
theorem dpo_trainer_refmodel_and_data (raw out : List Record)
    (h : dpoTrainDataset raw = .ok out) :
    dpo_trainer_args.ref_model = none ∧
    ∀ r ∈ out, ∃ ex ∈ raw, format_prompt ex = .ok r ∧
      recKeys r = ["prompt", "chosen", "rejected"] := by
  refine ⟨rfl, ?_⟩
  unfold dpoTrainDataset at h
  cases hf : datasetFilter dpoKeep raw with
  | error e => rw [hf] at h; simp [exc_bind_err] at h
  | ok mid =>
      rw [hf] at h
      simp only [exc_bind_ok] at h
      intro r hr
      obtain ⟨ex, hex, hfex⟩ := datasetMapRemoveAll_mem _ _ _ h r hr
      exact ⟨ex, datasetFilter_subset _ _ _ hf ex hex, hfex, format_prompt_keys hfex⟩

/-- The `format_prompt` image of the first record of `c1ds`. -/
def c5row : Record :=
  [("prompt", .str "<|system|>\nS</s>\n<|user|>\nI </s>\n<|assistant|>\n"),
   ("chosen", .str "C</s>\n"), ("rejected", .str "R</s>\n")]

/-- The value of the DPO dataset pipeline on `c1ds`: only the first
record survives the filter, and it is mapped through `format_prompt`. -/
def c5out : List Record := [c5row]

theorem dpo_trainer_refmodel_and_data_witness :
    dpo_trainer_args.ref_model = none ∧
    ∀ r ∈ c5out, ∃ ex ∈ c1ds, format_prompt ex = .ok r ∧
      recKeys r = ["prompt", "chosen", "rejected"] :=
  dpo_trainer_refmodel_and_data c1ds c5out rfl

/-- C9 (amended): every row of the mapped DPO dataset has exactly the
three columns `prompt`, `chosen`, `rejected`; any column named otherwise
— in particular `system`, `input`, `status`, `chosen_score` and
`in_gsm8k_train` — is absent.  The names `chosen` and `rejected`, which
also name original columns, reappear as new columns holding the
formatted completions. -/
theorem dpo_mapped_columns (raw out : List Record)
    (h : dpoTrainDataset raw = .ok out) :
    ∀ r ∈ out, recKeys r = ["prompt", "chosen", "rejected"] ∧
      ∀ c : String, c ∉ (["prompt", "chosen", "rejected"] : List String) →
        recGet r c = none := by
  unfold dpoTrainDataset at h
  cases hf : datasetFilter dpoKeep raw with
  | error e => rw [hf] at h; simp [exc_bind_err] at h
  | ok mid =>
      rw [hf] at h
      simp only [exc_bind_ok] at h
      intro r hr
      obtain ⟨ex, _, hfex⟩ := datasetMapRemoveAll_mem _ _ _ h r hr
      have hk := format_prompt_keys hfex
      exact ⟨hk, fun c hc => recGet_none_of_not_mem_keys (by rw [hk]; exact hc)⟩

theorem dpo_mapped_columns_witness :
    recKeys c5row = ["prompt", "chosen", "rejected"] ∧
      ∀ c : String, c ∉ (["prompt", "chosen", "rejected"] : List String) →
        recGet c5row c = none :=
  dpo_mapped_columns c1ds c5out rfl c5row (by decide)

/-- C9 counterexample: `chosen` is an original column of the raw record,
and the mapped result also has a column named `chosen` — so it is not
the case that every original column name is absent from the result. -/
theorem dpo_mapped_columns_counterexample :
    "chosen" ∈ recKeys (c1ds.getD 0 []) ∧
    dpoTrainDataset c1ds = .ok c5out ∧
    "chosen" ∈ recKeys (c5out.getD 0 []) :=
  ⟨by decide, rfl, by decide⟩

theorem exc_map_ok {α β : Type} (a : α) (f : α → β) :
    (Except.ok a : Except PyError α).map f = .ok (f a) := rfl

theorem exc_map_err {α β : Type} (e : PyError) (f : α → β) :
    (Except.error e : Except PyError α).map f = .error e := rfl

/-- The fixed template of the DPO `prompt` string. -/
def dpoPromptTemplate : List TemplatePiece :=
  [.lit "<|system|>\n", .field "system", .lit "</s>\n",
   .lit "<|user|>\n", .field "input", .lit " </s>\n<|assistant|>\n"]

/-- The fixed template of the DPO `chosen` string. -/
def dpoChosenTemplate : List TemplatePiece :=
  [.field "chosen", .lit "</s>\n"]

/-- The fixed template of the DPO `rejected` string. -/
def dpoRejectedTemplate : List TemplatePiece :=
  [.field "rejected", .lit "</s>\n"]

/-- Rendering a template reads only through `pyGetStr`: two records with
identical lookups render identically. -/
theorem renderTemplate_congr (t : List TemplatePiece) (ex1 ex2 : Record)
    (h : ∀ k, pyGetStr ex1 k = pyGetStr ex2 k) :
    renderTemplate t ex1 = renderTemplate t ex2 := by
  induction t with
  | nil => rfl
  | cons p rest ih =>
      cases p with
      | lit s => simp only [renderTemplate, ih]
      | field k => simp only [renderTemplate, h k, ih]

/-- C3 (amended): the DPO notebook's `format_prompt` is exactly the
rendering of three fixed templates over the example's fields — so each
of its returned strings is a concatenation of the example's fields with
fixed template literals — while the instruction-tuning notebook's
`format_prompt` produces its `text` value by handing
`example["messages"]` to the tokenizer's `apply_chat_template`, a
per-message fold over the chat list rather than a fixed-template
concatenation of the example's fields. -/
theorem prompt_formatting_shapes :
    (∀ ex : Record,
      format_prompt ex =
        renderTemplate dpoPromptTemplate ex >>= fun p =>
        renderTemplate dpoChosenTemplate ex >>= fun c =>
        (renderTemplate dpoRejectedTemplate ex).map fun r =>
          [("prompt", Value.str p), ("chosen", Value.str c),
           ("rejected", Value.str r)]) ∧
    (∀ (ex : Record) (ms : List ChatMessage),
      recGet ex "messages" = some (.msgs ms) →
        format_prompt_instr ex = .ok [("text", .str (apply_chat_template ms))]) := by
  constructor
  · intro ex
    cases h1 : pyGetStr ex "system" with
    | error e =>
        simp only [format_prompt, renderTemplate, dpoPromptTemplate, dpoChosenTemplate,
          dpoRejectedTemplate, h1, exc_bind_ok, exc_bind_err, exc_map_ok, exc_map_err,
          exc_pure]
    | ok s1 =>
        cases h2 : pyGetStr ex "input" with
        | error e =>
            simp only [format_prompt, renderTemplate, dpoPromptTemplate, dpoChosenTemplate,
              dpoRejectedTemplate, h1, h2, exc_bind_ok, exc_bind_err, exc_map_ok,
              exc_map_err, exc_pure]
        | ok s2 =>
            cases h3 : pyGetStr ex "chosen" with
            | error e =>
                simp only [format_prompt, renderTemplate, dpoPromptTemplate,
                  dpoChosenTemplate, dpoRejectedTemplate, h1, h2, h3, exc_bind_ok,
                  exc_bind_err, exc_map_ok, exc_map_err, exc_pure]
            | ok s3 =>
                cases h4 : pyGetStr ex "rejected" with
                | error e =>
                    simp only [format_prompt, renderTemplate, dpoPromptTemplate,
                      dpoChosenTemplate, dpoRejectedTemplate, h1, h2, h3, h4, exc_bind_ok,
                      exc_bind_err, exc_map_ok, exc_map_err, exc_pure]
                | ok s4 =>
                    simp only [format_prompt, renderTemplate, dpoPromptTemplate,
                      dpoChosenTemplate, dpoRejectedTemplate, h1, h2, h3, h4, exc_bind_ok,
                      exc_bind_err, exc_map_ok, exc_map_err, exc_pure, Except.ok.injEq]
                    simp only [String.append_assoc, String.append_empty]
  · intro ex ms h
    unfold format_prompt_instr pyGetMsgs
    rw [h]
    rfl

/-- An example whose `messages` chat list is empty. -/
def c3ex1 : Record := [("messages", Value.msgs [])]

/-- An example whose `messages` chat list holds one user message. -/
def c3ex2 : Record := [("messages", Value.msgs [⟨"user", "hi"⟩])]

/-- C3 counterexample: no fixed template renders, on every example, the
`text` value of the instruction-tuning `format_prompt`.  The two
concrete examples `c3ex1` and `c3ex2` agree on every field lookup yet
get different `text` values, because the chat-template rendering varies
with the number of messages. -/
theorem instr_text_not_fixed_template : ¬ InstrTextIsFixedTemplate := by
  rintro ⟨t, ht⟩
  have hkeys : ∀ k, pyGetStr c3ex1 k = pyGetStr c3ex2 k := by
    intro k
    unfold c3ex1 c3ex2 pyGetStr recGet
    by_cases hk : "messages" = k
    · simp [hk]
    · simp [hk]
  have hA : (renderTemplate t c3ex1).map
      (fun s => [("text", Value.str s)]) = .ok [("text", Value.str "")] :=
    (ht c3ex1).symm.trans (by rfl)
  have hB : (renderTemplate t c3ex2).map
      (fun s => [("text", Value.str s)]) = .ok [("text", Value.str "<|user|>\nhi</s>\n")] :=
    (ht c3ex2).symm.trans (by rfl)
  rw [renderTemplate_congr t c3ex1 c3ex2 hkeys] at hA
  rw [hB] at hA
  simp at hA

/-- C4: in each notebook's execution order the dataset is loaded and
mapped through the prompt-formatting function, then the configuration
objects are constructed, then `train()` is invoked, then
`merge_and_unload()`, and only after that is `pipeline()` invoked for
generation; in particular no `pipeline()` or generation call precedes
the `merge_and_unload()` call in either trace. -/
theorem notebook_phase_order :
    phaseOrdered sftTrace = true ∧ phaseOrdered dpoTrace = true ∧
    allBefore (callIdxs sftTrace "merge_and_unload") (callIdxs sftTrace "pipeline") = true ∧
    allBefore (callIdxs dpoTrace "merge_and_unload") (callIdxs dpoTrace "pipeline") = true :=
  ⟨rfl, rfl, rfl, rfl⟩

/-- C6: both notebooks construct the same `BitsAndBytesConfig` — 4-bit
loading, `nf4` quantization, `float16` compute dtype, nested
quantization — and pass it unchanged as the `quantization_config`
argument of their model-loading call; the embedded repository logic
contains no quantization arithmetic, only this configuration object. -/
theorem quantization_config_only :
    sft_bnb_config = ⟨true, "nf4", "float16", true⟩ ∧
    dpo_bnb_config = ⟨true, "nf4", "float16", true⟩ ∧
    sft_model_load.quantization_config = some sft_bnb_config ∧
    dpo_model_load.quantization_config = some dpo_bnb_config :=
  ⟨rfl, rfl, rfl, rfl⟩

/-- C7 (amended): each notebook calls `merge_and_unload()` exactly once,
after training.  In the DPO notebook the merged model is subsequently
saved and generation uses the model reloaded from that save directory;
in the instruction-tuning notebook the merged model is passed directly
to `pipeline()` for generation but is never saved (only the adapter is
saved, before the merge). -/
theorem adapter_merge_once :
    (mergeStmts sftTrace).length = 1 ∧ (mergeStmts dpoTrace).length = 1 ∧
    mergeSavedAndUsed dpoTrace = true ∧ mergeUsedNeverSaved sftTrace = true :=
  ⟨rfl, rfl, rfl, rfl⟩

/-- C7 counterexample: on the instruction-tuning notebook's trace the
claim fails — its single merged model is never saved, so it is not
"subsequently saved and used for generation". -/
theorem adapter_merge_counterexample : mergeSavedAndUsed sftTrace = false := rfl
